import Mathlib

/-!
Shallow embedding of `weed/storage/needle/needle_parse_upload.go`.

The Go file normalizes an HTTP upload (single-body PUT or multipart POST)
into a `ParsedUpload` record.  Pure data is translated directly; the
request, its body and its multipart sections are modelled as explicit
data (byte lists plus an optional trailing read error), and the side
effects that matter to the claims (how many multipart sections were
consumed, whether the PUT body was drained and closed) are returned as
explicit effect records.  External collaborators that are not part of
the translated file (the `util` package, `ReadTTL`, the Go standard
library's content sniffer, MIME table and MD5) are threaded through an
`Externals` record of pure functions.
-/

deriving instance DecidableEq for Except

namespace NeedleParse

/-- Errors produced along the parse paths.  `eof` stands for Go's
`io.EOF`; the remaining constructors carry the data of the `fmt.Errorf`
calls in the source, rendered to the literal Go message by `render`. -/
inductive Err where
  | eof
  | ioErr (msg : String)
  | multipartOpen (msg : String)
  | gzipEncoding (msg : String)
  | sizeLimit (limit : Int)
  | checksumMismatch (expected actual : String)
deriving Repr, DecidableEq

/-- The literal error strings of the Go source. -/
def render : Err → String
  | Err.eof => "EOF"
  | Err.ioErr msg => msg
  | Err.multipartOpen msg => msg
  | Err.gzipEncoding msg => "Content-Encoding == gzip but content was not gzipped: " ++ msg
  | Err.sizeLimit limit => "file over the limited " ++ toString limit ++ " bytes"
  | Err.checksumMismatch expected actual =>
      "Content-MD5 did not match md5 of file data [" ++ expected ++ "] != [" ++ actual ++ "]"

/-- A PUT-style request body: the bytes the reader will deliver, followed
by either normal end-of-stream (`readErr = none` or `some Err.eof`) or an
I/O failure. -/
structure PutBody where
  bytes : List Nat
  readErr : Option Err
deriving Repr, DecidableEq

/-- One multipart section: its declared file name, its MIME headers, its
content bytes, and the error (if any) its reader yields after the bytes. -/
structure Part where
  filename : String
  headers : List (String × String)
  bytes : List Nat
  readErr : Option Err
deriving Repr, DecidableEq

/-- The inbound HTTP request, as far as `ParseUpload` observes it.
`parts` is the result of `r.MultipartReader()`: either an envelope error
or the list of sections, each of which `NextPart` either delivers or
fails on. -/
structure Request where
  method : String
  headers : List (String × String)
  form : List (String × String)
  body : PutBody
  parts : Except String (List (Except String Part))
deriving Repr

/-- `ParsedUpload` (the Go struct), with Go's zero values as defaults.
`Ttl : Option Nat` stands for the `*TTL` pointer (`none` = nil). -/
structure ParsedUpload where
  FileName : String := ""
  Data : List Nat := []
  MimeType : String := ""
  PairMap : List (String × String) := []
  IsGzipped : Bool := false
  OriginalDataSize : Nat := 0
  ModifiedTime : Nat := 0
  Ttl : Option Nat := none
  IsChunkedFile : Bool := false
  UncompressedData : List Nat := []
deriving Repr, DecidableEq

/-- Modelled from the spec: the external capabilities the source file
calls but whose code is not under `src/` — the repository functions
`util.GzipData`, `util.DecompressData`, `util.IsGzippableFileType`
(the "(shouldCompress, confident) classifier" of the spec) and
`ReadTTL`, plus the standard-library collaborators
`http.DetectContentType`, `mime.TypeByExtension` and the streaming MD5
digest, all treated as pure functions. -/
structure Externals where
  detectContentType : List Nat → String
  typeByExtension : String → String
  isGzippableFileType : String → String → Bool × Bool
  gzipData : List Nat → Except String (List Nat)
  decompressData : List Nat → Except String (List Nat)
  md5hex : List Nat → String
  readTTL : String → Option Nat

/-- Modelled from the spec: the reserved metadata-prefix constant
`PairNamePrefix`, declared elsewhere in the `needle` package. -/
def pairNameStart : String := "Seaweed-"

/-- `http.Header.Get` / `part.Header.Get`: first value for the key,
empty string when absent. -/
def headerGet (hs : List (String × String)) (k : String) : String :=
  match hs.find? (fun kv => kv.1 == k) with
  | some kv => kv.2
  | none => ""

/-- `r.FormValue`: first value for the field, empty string when absent. -/
def formValue (fs : List (String × String)) (k : String) : String :=
  match fs.find? (fun kv => kv.1 == k) with
  | some kv => kv.2
  | none => ""

/-- The `PairMap` loop of `ParseUpload`: keep the headers whose name
starts with the reserved prefix. -/
def extractPairMap (hs : List (String × String)) : List (String × String) :=
  hs.filter (fun kv => kv.1.startsWith pairNameStart)

/-- `strconv.ParseUint(s, 10, 64)`, as an `Option`. -/
def parseUint64 (s : String) : Option Nat :=
  match s.toNat? with
  | some v => if v < 2 ^ 64 then some v else none
  | none => none

/-- `strconv.ParseBool`, as an `Option`. -/
def parseBool (s : String) : Option Bool :=
  if s = "1" ∨ s = "t" ∨ s = "T" ∨ s = "TRUE" ∨ s = "true" ∨ s = "True" then some true
  else if s = "0" ∨ s = "f" ∨ s = "F" ∨ s = "FALSE" ∨ s = "false" ∨ s = "False" then some false
  else none

/-- `path.Base` / `filepath.Base` on slash-separated names. -/
def pathBase (p : String) : String :=
  if p = "" then "."
  else
    let cs := (p.toList.reverse.dropWhile (fun c => c = '/')).reverse
    if cs = [] then "/"
    else String.mk ((cs.reverse.takeWhile (fun c => c ≠ '/')).reverse)

/-- `strings.LastIndex(fn, ".")`: index of the last dot, `-1` when none. -/
def lastDotIndex (fn : String) : Int :=
  match List.findIdx? (fun c => c == '.') fn.toList.reverse with
  | none => -1
  | some i => (fn.toList.length : Int) - 1 - (i : Int)

/-- `ioutil.ReadAll(io.LimitReader(src, n))` over a source that delivers
`bytes` and then `readErr`.  `ReadAll` converts `io.EOF` into success; a
source error only surfaces when the limit is not reached first. -/
def readAllLimit (bytes : List Nat) (readErr : Option Err) (n : Int) : List Nat × Option Err :=
  let lim := n.toNat
  if lim ≤ bytes.length then (bytes.take lim, none)
  else
    match readErr with
    | some Err.eof => (bytes, none)
    | some e => (bytes, some e)
    | none => (bytes, none)

/-- Whether an error value is Go's `io.EOF` (the `e == io.EOF` test). -/
def isEOFErr : Option Err → Bool
  | some Err.eof => true
  | _ => false

/-- Side effects of `parsePut` on the request body: how many body bytes
the capped read consumed, whether the `io.Copy(ioutil.Discard, r.Body)`
drain ran, and whether `r.Body.Close()` ran. -/
structure PutEffects where
  consumed : Nat
  drained : Bool
  closed : Bool
deriving Repr, DecidableEq

/-- `parsePut`.  Faithful to the source: the drain condition tests
`e == io.EOF` and the record's `OriginalDataSize` field as it stands at
that point, and the final statement is `return nil`, dropping `e`. -/
def parsePut (r : Request) (s : Int) (pu : ParsedUpload) :
    (ParsedUpload × Option Err) × PutEffects :=
  let pu1 := { pu with
    IsGzipped := headerGet r.headers "Content-Encoding" == "gzip",
    MimeType := headerGet r.headers "Content-Type",
    FileName := "" }
  let res := readAllLimit r.body.bytes r.body.readErr (s + 1)
  let pu2 := { pu1 with Data := res.1 }
  let drained := isEOFErr res.2 || ((pu2.OriginalDataSize : Int) == s + 1)
  ((pu2, none), { consumed := res.1.length, drained := drained, closed := true })

/-- The byte stream the `ChecksumReader` consumes for the primary
section: the capped section bytes, gzip-decoded first when the request
declares `Content-Encoding: gzip` (a decode failure is the
`gzip.NewReader` error). -/
def consumedPrimaryStream (E : Externals) (r : Request) (s : Int) (part : Part) :
    Except Err (List Nat × Option Err) :=
  let res := readAllLimit part.bytes part.readErr (s + 1)
  if headerGet r.headers "Content-Encoding" = "gzip" then
    match E.decompressData res.1 with
    | Except.error msg => Except.error (Err.gzipEncoding msg)
    | Except.ok dec => Except.ok (dec, res.2)
  else Except.ok res

/-- Reading the primary section's payload in `parseMultipart`: with a
`Content-MD5` header the stream is digested while read and the digest
compared textually (the comparison precedes the `e != nil` check, as in
the source); without one it is a plain capped read. -/
def acquirePrimary (E : Externals) (r : Request) (s : Int) (part : Part) :
    Except Err (List Nat) :=
  let expected := headerGet r.headers "Content-MD5"
  if expected ≠ "" then
    match consumedPrimaryStream E r s part with
    | Except.error err => Except.error err
    | Except.ok de =>
      let actual := E.md5hex de.1
      if expected ≠ actual then Except.error (Err.checksumMismatch expected actual)
      else
        match de.2 with
        | some err => Except.error err
        | none => Except.ok de.1
  else
    let res := readAllLimit part.bytes part.readErr (s + 1)
    match res.2 with
    | some err => Except.error err
    | none => Except.ok res.1

/-- The `for pu.FileName == ""` loop over the remaining sections: skip
sections without a file name, stop on `NextPart` failure, and on the
first named section do a capped read, enforce the size limit, and
return its bytes and base name.  The `Nat` counts the sections the loop
consumed. -/
def scanParts (s : Int) : List (Except String Part) →
    Except Err (Option (List Nat × String)) × Nat
  | [] => (Except.ok none, 0)
  | Except.error _ :: _ => (Except.ok none, 0)
  | Except.ok p :: rest =>
    if p.filename ≠ "" then
      match readAllLimit p.bytes p.readErr (s + 1) with
      | (_, some err) => (Except.error err, 1)
      | (d2, none) =>
        if (d2.length : Int) = s + 1 then (Except.error (Err.sizeLimit s), 1)
        else (Except.ok (some (d2, pathBase p.filename)), 1)
    else
      let res := scanParts s rest
      (res.1, res.2 + 1)

/-- The tail of `parseMultipart`: the `cm` flag and, for non-chunked
uploads, the MIME-type precedence rule and the `IsGzipped` flag, both
read from the primary section's headers. -/
def finishMultipart (E : Externals) (r : Request) (part : Part) (pu : ParsedUpload) :
    ParsedUpload :=
  let pu1 := { pu with IsChunkedFile := (parseBool (formValue r.form "cm")).getD false }
  if pu1.IsChunkedFile then pu1
  else
    let d := lastDotIndex pu1.FileName
    let mtype := if 0 < d then E.typeByExtension (String.toLower (String.drop pu1.FileName d.toNat)) else ""
    let ct := headerGet part.headers "Content-Type"
    { pu1 with
      MimeType := if ct ≠ "" ∧ ct ≠ "application/octet-stream" ∧ mtype ≠ ct
        then ct else pu1.MimeType,
      IsGzipped := headerGet part.headers "Content-Encoding" == "gzip" }

/-- `parseMultipart`.  The `Nat` component counts the multipart sections
consumed (`NextPart` calls that returned a section). -/
def parseMultipart (E : Externals) (r : Request) (s : Int) (pu : ParsedUpload) :
    (ParsedUpload × Option Err) × Nat :=
  match r.parts with
  | Except.error msg => ((pu, some (Err.multipartOpen msg)), 0)
  | Except.ok [] => ((pu, some Err.eof), 0)
  | Except.ok (Except.error msg :: _) => ((pu, some (Err.ioErr msg)), 0)
  | Except.ok (Except.ok part :: rest) =>
    let pu1 := { pu with
      FileName := if part.filename ≠ "" then pathBase part.filename else part.filename }
    match acquirePrimary E r s part with
    | Except.error err => ((pu1, some err), 1)
    | Except.ok data =>
      let pu2 := { pu1 with Data := data }
      if (data.length : Int) = s + 1 then ((pu2, some (Err.sizeLimit s)), 1)
      else
        match (if pu2.FileName = "" then scanParts s rest else (Except.ok none, 0)) with
        | (Except.error err, n) => ((pu2, some err), 1 + n)
        | (Except.ok found, n) =>
          let pu3 := match found with
            | some df => { pu2 with Data := df.1, FileName := df.2 }
            | none => pu2
          ((finishMultipart E r part pu3, none), 1 + n)

/-- The fresh record `ParseUpload` builds before branching: zero values
plus the metadata pairs. -/
def initialPu (r : Request) : ParsedUpload :=
  { PairMap := extractPairMap r.headers }

/-- The acquisition branch of `ParseUpload`: `parseMultipart` for POST,
`parsePut` otherwise (effects dropped, as the caller does). -/
def acquireStep (E : Externals) (r : Request) (s : Int) : ParsedUpload × Option Err :=
  if r.method = "POST" then (parseMultipart E r s (initialPu r)).1
  else (parsePut r s (initialPu r)).1

/-- The `ts` / `ttl` form fields (best-effort). -/
def setTimes (E : Externals) (r : Request) (pu : ParsedUpload) : ParsedUpload :=
  { pu with
    ModifiedTime := (parseUint64 (formValue r.form "ts")).getD 0,
    Ttl := E.readTTL (formValue r.form "ttl") }

/-- `pu.OriginalDataSize = len(pu.Data); pu.UncompressedData = pu.Data`. -/
def setSizes (pu : ParsedUpload) : ParsedUpload :=
  { pu with OriginalDataSize := pu.Data.length, UncompressedData := pu.Data }

/-- MIME sniffing when no type was captured; the generic sniff result is
normalized to the empty string. -/
def sniffMime (E : Externals) (pu : ParsedUpload) : ParsedUpload :=
  if pu.MimeType = "" then
    let m := E.detectContentType pu.Data
    { pu with MimeType := if m = "application/octet-stream" then "" else m }
  else pu

/-- The compression negotiator of `ParseUpload`: best-effort decompress
an already-compressed payload; otherwise consult the classifier,
compress, and keep the compressed form only when
`len(compressed)*10 < len(original)*9`. -/
def negotiate (E : Externals) (pu : ParsedUpload) : ParsedUpload :=
  if pu.IsGzipped then
    match E.decompressData pu.Data with
    | Except.ok unzipped =>
        { pu with OriginalDataSize := unzipped.length, UncompressedData := unzipped }
    | Except.error _ => pu
  else
    let ext := pathBase pu.FileName
    let sg := E.isGzippableFileType ext pu.MimeType
    if (pu.MimeType == "" && !sg.2) || (sg.1 && sg.2) then
      match E.gzipData pu.Data with
      | Except.ok compressedData =>
        if compressedData.length * 10 < pu.Data.length * 9 then
          { pu with Data := compressedData, IsGzipped := true }
        else pu
      | Except.error _ => pu
    else pu

/-- Everything `ParseUpload` does after a successful acquisition. -/
def finalizeUpload (E : Externals) (r : Request) (pu : ParsedUpload) : ParsedUpload :=
  negotiate E (sniffMime E (setSizes (setTimes E r pu)))

/-- `ParseUpload`: the top-level entry point of the source file. -/
def ParseUpload (E : Externals) (r : Request) (s : Int) : ParsedUpload × Option Err :=
  match acquireStep E r s with
  | (pu1, some err) => (pu1, some err)
  | (pu1, none) => (finalizeUpload E r pu1, none)

/-! ### Concrete instances used by witnesses and counterexamples -/

/-- A concrete `Externals` instance: a prefix-byte "gzip" codec (round
trips, never shrinks), a classifier that confidently declines to
compress, and a digest that prints the byte sum. -/
def EX0 : Externals where
  detectContentType := fun _ => "application/octet-stream"
  typeByExtension := fun _ => ""
  isGzippableFileType := fun _ _ => (false, true)
  gzipData := fun d => Except.ok (0 :: d)
  decompressData := fun l =>
    match l with
    | 0 :: d => Except.ok d
    | _ => Except.error "unexpected EOF"
  md5hex := fun l => toString (l.foldl (fun a b => a + b) 0)
  readTTL := fun _ => none

/-- `EX0` with a classifier that confidently recommends compression and
a "gzip" that compresses everything to the single byte `[9]`. -/
def EX1 : Externals :=
  { EX0 with
    isGzippableFileType := fun _ _ => (true, true),
    gzipData := fun _ => Except.ok [9] }

/-- `EX0` with a classifier that confidently recommends compression and
a "gzip" that emits exactly nine bytes: on a ten-byte payload the
compressed form is exactly 90% of the original. -/
def EX2 : Externals :=
  { EX0 with
    isGzippableFileType := fun _ _ => (true, true),
    gzipData := fun _ => Except.ok (List.replicate 9 0) }

/-- A PUT-style request with the given headers, body bytes and trailing
body error. -/
def putReq (hs : List (String × String)) (bs : List Nat) (re : Option Err) : Request where
  method := "PUT"
  headers := hs
  form := []
  body := { bytes := bs, readErr := re }
  parts := Except.error "request Content-Type isn't multipart/form-data"

/-- A POST multipart request with the given headers and sections. -/
def postReq (hs : List (String × String)) (ps : List (Except String Part)) : Request where
  method := "POST"
  headers := hs
  form := []
  body := { bytes := [], readErr := none }
  parts := Except.ok ps

/-- C1's counterexample request: a PUT whose body is exactly
`sizeLimit + 1 = 3` bytes. -/
def rPutExact : Request := putReq [] [1, 2, 3] none

/-- C2's counterexample request: a PUT whose body read fails with an
I/O error after two bytes. -/
def rPutIOErr : Request := putReq [] [1, 2] (some (Err.ioErr "read: connection reset"))

/-- C3's counterexample request: a PUT declaring `Content-Encoding:
gzip` over a body that is not valid gzip for `EX0`. -/
def rPutBadGzip : Request := putReq [("Content-Encoding", "gzip")] [5, 6] none

/-- C3's witness request: a PUT declaring `Content-Encoding: gzip` over
a body that `EX0` decodes successfully. -/
def rPutGoodGzip : Request := putReq [("Content-Encoding", "gzip")] [0, 7, 8] none

/-- C4's counterexample request: a PUT with no `Content-Encoding`
header and a compressible text payload. -/
def rPutPlain : Request := putReq [("Content-Type", "text/plain")] [1, 2, 3] none

/-- C5's counterexample request: a PUT with a ten-byte payload whose
`EX2`-compressed form is exactly nine bytes. -/
def rPutTen : Request := putReq [("Content-Type", "text/plain")] (List.replicate 10 1) none

/-- A section with the given name and bytes, no headers, no read error. -/
def mkPart (fn : String) (bs : List Nat) : Part where
  filename := fn
  headers := []
  bytes := bs
  readErr := none

/-- C1's witness request: a multipart POST whose primary section holds
four bytes (`sizeLimit = 3` makes that exactly `sizeLimit + 1`). -/
def rPostExact : Request := postReq [] [Except.ok (mkPart "a.txt" [1, 2, 3, 4])]

/-- C6's witness request: an unnamed primary section, an unnamed second
section, a named third section, and a trailing fourth section. -/
def rPostScan : Request := postReq []
  [Except.ok (mkPart "" [1]),
   Except.ok (mkPart "" [2]),
   Except.ok (mkPart "dir/e.txt" [3, 4]),
   Except.ok (mkPart "late.bin" [9, 9, 9])]

/-- C7's witness request: a multipart POST carrying `Content-MD5: zzz`
whose primary stream digests (under `EX0`) to `"3"`. -/
def rPostBadSum : Request := postReq [("Content-MD5", "zzz")]
  [Except.ok (mkPart "a.txt" [1, 2])]

/-- C10's witness request: `Content-MD5: 0` matches the empty primary
section's digest under `EX0`; the named second section's bytes digest
to `"15"` and are never checked. -/
def rPostSwap : Request := postReq [("Content-MD5", "0")]
  [Except.ok (mkPart "" []),
   Except.ok (mkPart "n.bin" [5, 5, 5])]

/-- C8's witness request: a plain PUT upload. -/
def rPutHello : Request := putReq [("Content-Type", "text/plain")] [104, 105] none

/-- C9's witness request: a PUT whose body holds three bytes, more than
`sizeLimit + 1 = 2`. -/
def rPutLong : Request := putReq [] [10, 20, 30] none

/-- C5's witness record: a not-yet-compressed three-byte text payload,
as it stands when the negotiator runs. -/
def puC5 : ParsedUpload := { Data := [1, 2, 3], MimeType := "text/plain" }

/-! ### Helper lemmas -/

theorem readAllLimit_of_le (bytes : List Nat) (re : Option Err) (n : Int)
    (h : n.toNat ≤ bytes.length) :
    readAllLimit bytes re n = (bytes.take n.toNat, none) := by
  unfold readAllLimit
  simp [h]

theorem readAllLimit_fst (bytes : List Nat) (re : Option Err) (n : Int) :
    (readAllLimit bytes re n).1 = bytes.take n.toNat := by
  by_cases h : n.toNat ≤ bytes.length
  · simp [readAllLimit, h]
  · have hle : bytes.length ≤ n.toNat := le_of_not_le h
    rcases re with _ | e
    · simp [readAllLimit, h, List.take_of_length_le hle]
    · cases e <;> simp [readAllLimit, h, List.take_of_length_le hle]

theorem readAllLimit_ne_eof (bytes : List Nat) (re : Option Err) (n : Int) :
    isEOFErr (readAllLimit bytes re n).2 = false := by
  by_cases h : n.toNat ≤ bytes.length
  · simp [readAllLimit, h, isEOFErr]
  · rcases re with _ | e
    · simp [readAllLimit, h, isEOFErr]
    · cases e <;> simp [readAllLimit, h, isEOFErr]

/-- `parsePut` ends in `return nil`: it never reports an error. -/
theorem parsePut_no_err (r : Request) (s : Int) (pu : ParsedUpload) :
    (parsePut r s pu).1.2 = none := rfl

theorem acquireStep_put (E : Externals) (r : Request) (s : Int)
    (hm : ¬ r.method = "POST") :
    acquireStep E r s = (parsePut r s (initialPu r)).1 := by
  unfold acquireStep
  rw [if_neg hm]

theorem acquireStep_post (E : Externals) (r : Request) (s : Int)
    (hm : r.method = "POST") :
    acquireStep E r s = (parseMultipart E r s (initialPu r)).1 := by
  unfold acquireStep
  rw [if_pos hm]

theorem ParseUpload_snd (E : Externals) (r : Request) (s : Int) :
    (ParseUpload E r s).2 = (acquireStep E r s).2 := by
  unfold ParseUpload
  rcases h : acquireStep E r s with ⟨pu1, e⟩
  cases e <;> simp

theorem ParseUpload_ok (E : Externals) (r : Request) (s : Int)
    (hok : (ParseUpload E r s).2 = none) :
    (ParseUpload E r s).1 = finalizeUpload E r (acquireStep E r s).1 := by
  unfold ParseUpload at *
  rcases h : acquireStep E r s with ⟨pu1, e⟩
  rw [h] at hok
  cases e <;> simp_all

/-! ### C9 — the PUT body is never drained -/

/-- C9 (code_bug): the claim says the remainder of an over-long PUT body
is drained before the body is closed.  In the source the drain guard is
`e == io.EOF || int64(pu.OriginalDataSize) == sizeLimit+1`, but
`ioutil.ReadAll` never returns `io.EOF` and `pu.OriginalDataSize` is
still zero at that point, so for every `sizeLimit ≠ -1` the drain never
runs: the body is closed with bytes left unread. -/
theorem parsePut_never_drains (r : Request) (s : Int) (pu : ParsedUpload)
    (h0 : pu.OriginalDataSize = 0) (hs : s ≠ -1)
    (hlong : (s + 1).toNat < r.body.bytes.length) :
    (parsePut r s pu).2.drained = false ∧
    (parsePut r s pu).2.consumed < r.body.bytes.length ∧
    (parsePut r s pu).2.closed = true := by
  have h1 := readAllLimit_ne_eof r.body.bytes r.body.readErr (s + 1)
  have h2 := readAllLimit_fst r.body.bytes r.body.readErr (s + 1)
  simp only [parsePut]
  refine ⟨?_, ?_, trivial⟩
  · rw [h1, h0]
    simp only [Bool.false_or, beq_eq_false_iff_ne, ne_eq]
    omega
  · rw [h2, List.length_take]
    omega

/-- Witness for C9 at `sizeLimit = 1` and a three-byte body. -/
theorem parsePut_never_drains_witness :
    (parsePut rPutLong 1 (initialPu rPutLong)).2.drained = false ∧
    (parsePut rPutLong 1 (initialPu rPutLong)).2.consumed < rPutLong.body.bytes.length ∧
    (parsePut rPutLong 1 (initialPu rPutLong)).2.closed = true :=
  parsePut_never_drains rPutLong 1 (initialPu rPutLong) (by decide) (by decide) (by decide)

/-! ### C2 — PUT body read errors are swallowed -/

/-- C2's counterexample: a PUT whose body read fails with an I/O error
(the modelled `ReadAll` surfaces it), yet `ParseUpload` succeeds. -/
theorem put_read_error_not_fatal :
    rPutIOErr.body.readErr = some (Err.ioErr "read: connection reset") ∧
    (readAllLimit rPutIOErr.body.bytes rPutIOErr.body.readErr 11).2
      = some (Err.ioErr "read: connection reset") ∧
    (ParseUpload EX0 rPutIOErr 10).2 = none := by decide

theorem ParseUpload_not_post_ok (E : Externals) (r : Request) (s : Int)
    (hm : ¬ r.method = "POST") :
    (ParseUpload E r s).2 = none := by
  rw [ParseUpload_snd, acquireStep_put E r s hm]
  exact parsePut_no_err r s (initialPu r)

/-- C2 (corrected): `parsePut` ends in `return nil`, so on the
single-body path `ParseUpload` never reports any error at all — body
read failures included; it proceeds with the partially read data. -/
theorem put_request_never_fails (E : Externals) (r : Request) (s : Int)
    (hm : ¬ r.method = "POST") :
    (ParseUpload E r s).2 = none :=
  ParseUpload_not_post_ok E r s hm

/-- Witness for C2's amended theorem on a concrete PUT request. -/
theorem put_request_never_fails_witness :
    (ParseUpload EX0 rPutIOErr 10).2 = none :=
  put_request_never_fails EX0 rPutIOErr 10 (by decide)

/-! ### C1 — size limit: enforced for multipart, not for PUT -/

/-- C1's counterexample: a PUT whose body is exactly `sizeLimit + 1 = 3`
bytes parses successfully (no size-limit error on the single-body
path). -/
theorem put_size_limit_not_enforced :
    (ParseUpload EX0 rPutExact 2).2 = none ∧
    (ParseUpload EX0 rPutExact 2).1.Data.length = 3 := by decide

/-- C1 (corrected): on the multipart path a payload of exactly
`sizeLimit + 1` bytes always yields the size-limit error with the
literal message; the single-body path does not enforce the limit. -/
theorem multipart_size_limit_exact (E : Externals) (r : Request) (s : Int)
    (p0 : Part) (rest : List (Except String Part))
    (hm : r.method = "POST")
    (hparts : r.parts = Except.ok (Except.ok p0 :: rest))
    (hmd5 : headerGet r.headers "Content-MD5" = "")
    (hs : 0 ≤ s)
    (hlen : (s + 1).toNat ≤ p0.bytes.length) :
    (ParseUpload E r s).2 = some (Err.sizeLimit s) ∧
    render (Err.sizeLimit s) = "file over the limited " ++ toString s ++ " bytes" := by
  refine ⟨?_, rfl⟩
  rw [ParseUpload_snd, acquireStep_post E r s hm]
  have hacq : acquirePrimary E r s p0 = Except.ok (p0.bytes.take (s + 1).toNat) := by
    simp only [acquirePrimary, hmd5, ne_eq, not_true_eq_false, if_false,
      readAllLimit_of_le p0.bytes p0.readErr (s + 1) hlen]
  have hdl : ((p0.bytes.take (s + 1).toNat).length : Int) = s + 1 := by
    rw [List.length_take_of_le hlen]
    omega
  simp only [parseMultipart, hparts, hacq]
  rw [if_pos hdl]

/-- Witness for C1's amended theorem: four-byte primary section at
`sizeLimit = 3`. -/
theorem multipart_size_limit_exact_witness :
    (ParseUpload EX0 rPostExact 3).2 = some (Err.sizeLimit 3) ∧
    render (Err.sizeLimit 3) = "file over the limited " ++ toString (3 : Int) ++ " bytes" :=
  multipart_size_limit_exact EX0 rPostExact 3 (mkPart "a.txt" [1, 2, 3, 4]) []
    (by decide) (by rfl) (by decide) (by decide) (by decide)

/-! ### Stage lemmas for the post-acquisition pipeline -/

theorem stages_FileName (E : Externals) (r : Request) (pu : ParsedUpload) :
    (sniffMime E (setSizes (setTimes E r pu))).FileName = pu.FileName := by
  unfold sniffMime
  split <;> rfl

theorem stages_Data (E : Externals) (r : Request) (pu : ParsedUpload) :
    (sniffMime E (setSizes (setTimes E r pu))).Data = pu.Data := by
  unfold sniffMime
  split <;> rfl

theorem stages_IsGzipped (E : Externals) (r : Request) (pu : ParsedUpload) :
    (sniffMime E (setSizes (setTimes E r pu))).IsGzipped = pu.IsGzipped := by
  unfold sniffMime
  split <;> rfl

theorem stages_UD (E : Externals) (r : Request) (pu : ParsedUpload) :
    (sniffMime E (setSizes (setTimes E r pu))).UncompressedData
      = (sniffMime E (setSizes (setTimes E r pu))).Data := by
  unfold sniffMime
  split <;> rfl

theorem stages_ODS (E : Externals) (r : Request) (pu : ParsedUpload) :
    (sniffMime E (setSizes (setTimes E r pu))).OriginalDataSize
      = (sniffMime E (setSizes (setTimes E r pu))).Data.length := by
  unfold sniffMime
  split <;> rfl

theorem negotiate_of_gzipped_ok (E : Externals) (pu : ParsedUpload) (u : List Nat)
    (h : pu.IsGzipped = true) (hd : E.decompressData pu.Data = Except.ok u) :
    negotiate E pu = { pu with OriginalDataSize := u.length, UncompressedData := u } := by
  simp [negotiate, h, hd]

theorem negotiate_of_gzipped_err (E : Externals) (pu : ParsedUpload) (m : String)
    (h : pu.IsGzipped = true) (hd : E.decompressData pu.Data = Except.error m) :
    negotiate E pu = pu := by
  simp [negotiate, h, hd]

theorem negotiate_of_not_gzipped (E : Externals) (pu : ParsedUpload)
    (h : pu.IsGzipped = false) :
    negotiate E pu = pu ∨
    ∃ c, E.gzipData pu.Data = Except.ok c ∧ c.length * 10 < pu.Data.length * 9 ∧
      negotiate E pu = { pu with Data := c, IsGzipped := true } := by
  by_cases hb : ((pu.MimeType == "" && !(E.isGzippableFileType (pathBase pu.FileName) pu.MimeType).2)
      || ((E.isGzippableFileType (pathBase pu.FileName) pu.MimeType).1
          && (E.isGzippableFileType (pathBase pu.FileName) pu.MimeType).2)) = true
  · rcases hg : E.gzipData pu.Data with m | c
    · left
      simp [negotiate, h, hb, hg]
    · by_cases hlt : c.length * 10 < pu.Data.length * 9
      · right
        exact ⟨c, rfl, hlt, by simp [negotiate, h, hb, hg, hlt]⟩
      · left
        simp [negotiate, h, hb, hg, hlt]
  · left
    simp [negotiate, h, hb]

theorem negotiate_gzipped_stays (E : Externals) (pu : ParsedUpload)
    (h : pu.IsGzipped = true) : (negotiate E pu).IsGzipped = true := by
  rcases hd : E.decompressData pu.Data with m | u
  · rw [negotiate_of_gzipped_err E pu m h hd]
    exact h
  · rw [negotiate_of_gzipped_ok E pu u h hd]
    exact h

/-! ### C8 — OriginalDataSize always equals len(UncompressedData) -/

/-- C8 (confirmed): on every successful parse, the returned record
satisfies `OriginalDataSize = UncompressedData.length`, whichever
branch of the compression negotiator ran. -/
theorem ods_eq_len_uncompressed (E : Externals) (r : Request) (s : Int)
    (hok : (ParseUpload E r s).2 = none) :
    (ParseUpload E r s).1.OriginalDataSize
      = (ParseUpload E r s).1.UncompressedData.length := by
  rw [ParseUpload_ok E r s hok]
  unfold finalizeUpload
  set pu := (acquireStep E r s).1 with hpu
  set q := sniffMime E (setSizes (setTimes E r pu)) with hq
  have hODS : q.OriginalDataSize = q.Data.length := stages_ODS E r pu
  have hUD : q.UncompressedData = q.Data := stages_UD E r pu
  cases hqg : q.IsGzipped
  · rcases negotiate_of_not_gzipped E q hqg with hE | ⟨c, hg, hlt, hE⟩
    · rw [hE, hODS, hUD]
    · rw [hE]
      show q.OriginalDataSize = q.UncompressedData.length
      rw [hODS, hUD]
  · rcases hd : E.decompressData q.Data with m | u
    · rw [negotiate_of_gzipped_err E q m hqg hd, hODS, hUD]
    · rw [negotiate_of_gzipped_ok E q u hqg hd]

/-- Witness for C8 on a concrete PUT upload. -/
theorem ods_eq_len_uncompressed_witness :
    (ParseUpload EX0 rPutHello 10).1.OriginalDataSize
      = (ParseUpload EX0 rPutHello 10).1.UncompressedData.length :=
  ods_eq_len_uncompressed EX0 rPutHello 10 (by decide)

/-! ### C3 — the gzip round trip holds only when decoding succeeds -/

/-- C3's counterexample: a PUT declaring `Content-Encoding: gzip` over
an invalid body parses successfully with `IsGzipped = true`, yet `Data`
does not decompress to `UncompressedData` (decompression fails and is
silently ignored, leaving `UncompressedData = Data`). -/
theorem gzip_decode_failure_keeps_raw :
    (ParseUpload EX0 rPutBadGzip 100).2 = none ∧
    (ParseUpload EX0 rPutBadGzip 100).1.IsGzipped = true ∧
    EX0.decompressData (ParseUpload EX0 rPutBadGzip 100).1.Data
      = Except.error "unexpected EOF" ∧
    (ParseUpload EX0 rPutBadGzip 100).1.UncompressedData
      = (ParseUpload EX0 rPutBadGzip 100).1.Data := by decide

/-- C3 (corrected): on a successful parse with `IsGzipped = true`,
`OriginalDataSize = UncompressedData.length` always holds, and one of
three cases: `Data` decompresses to exactly `UncompressedData`; or the
already-compressed body failed to decode and `UncompressedData` is the
raw `Data` unchanged; or the negotiator freshly compressed, and `Data`
is the compressor's output on `UncompressedData`. -/
theorem gzipped_data_cases (E : Externals) (r : Request) (s : Int)
    (hok : (ParseUpload E r s).2 = none)
    (hgz : (ParseUpload E r s).1.IsGzipped = true) :
    (ParseUpload E r s).1.OriginalDataSize
      = (ParseUpload E r s).1.UncompressedData.length ∧
    (E.decompressData (ParseUpload E r s).1.Data
        = Except.ok (ParseUpload E r s).1.UncompressedData ∨
     (ParseUpload E r s).1.UncompressedData = (ParseUpload E r s).1.Data ∨
     E.gzipData (ParseUpload E r s).1.UncompressedData
        = Except.ok (ParseUpload E r s).1.Data) := by
  rw [ParseUpload_ok E r s hok] at hgz ⊢
  unfold finalizeUpload at hgz ⊢
  set pu := (acquireStep E r s).1 with hpu
  set q := sniffMime E (setSizes (setTimes E r pu)) with hq
  have hODS : q.OriginalDataSize = q.Data.length := stages_ODS E r pu
  have hUD : q.UncompressedData = q.Data := stages_UD E r pu
  cases hqg : q.IsGzipped
  · rcases negotiate_of_not_gzipped E q hqg with hE | ⟨c, hg, hlt, hE⟩
    · rw [hE] at hgz
      rw [hqg] at hgz
      exact absurd hgz (by simp)
    · rw [hE]
      refine ⟨?_, Or.inr (Or.inr ?_)⟩
      · show q.OriginalDataSize = q.UncompressedData.length
        rw [hODS, hUD]
      · show E.gzipData q.UncompressedData = Except.ok c
        rw [hUD]
        exact hg
  · rcases hd : E.decompressData q.Data with m | u
    · rw [negotiate_of_gzipped_err E q m hqg hd]
      exact ⟨by rw [hODS, hUD], Or.inr (Or.inl hUD)⟩
    · rw [negotiate_of_gzipped_ok E q u hqg hd]
      exact ⟨rfl, Or.inl hd⟩

/-- Witness for C3's amended theorem: a PUT whose gzipped body decodes
successfully under `EX0`. -/
theorem gzipped_data_cases_witness :
    (ParseUpload EX0 rPutGoodGzip 100).1.OriginalDataSize
      = (ParseUpload EX0 rPutGoodGzip 100).1.UncompressedData.length ∧
    (EX0.decompressData (ParseUpload EX0 rPutGoodGzip 100).1.Data
        = Except.ok (ParseUpload EX0 rPutGoodGzip 100).1.UncompressedData ∨
     (ParseUpload EX0 rPutGoodGzip 100).1.UncompressedData
        = (ParseUpload EX0 rPutGoodGzip 100).1.Data ∨
     EX0.gzipData (ParseUpload EX0 rPutGoodGzip 100).1.UncompressedData
        = Except.ok (ParseUpload EX0 rPutGoodGzip 100).1.Data) :=
  gzipped_data_cases EX0 rPutGoodGzip 100 (by decide) (by decide)

/-! ### C4 — PUT: FileName empty; IsGzipped not only from the header -/

/-- C4's counterexample: a PUT with no `Content-Encoding` header whose
payload the negotiator compresses (classifier `EX1` recommends it and
the compressed form is small enough): the returned record has
`IsGzipped = true` although the header is not `"gzip"`. -/
theorem put_gzip_flag_without_header :
    (ParseUpload EX1 rPutPlain 100).2 = none ∧
    (ParseUpload EX1 rPutPlain 100).1.IsGzipped = true ∧
    ¬ headerGet rPutPlain.headers "Content-Encoding" = "gzip" := by decide

/-- C4 (corrected): for every single-body request the final record has
`FileName = ""`, and a `Content-Encoding: gzip` header forces
`IsGzipped = true`; but `IsGzipped = true` only implies that either the
header was `"gzip"` or the compression negotiator compressed the
payload (in which case `Data` is the compressor's output on
`UncompressedData` and is strictly smaller than 90% of it). -/
theorem put_filename_and_gzip_flag (E : Externals) (r : Request) (s : Int)
    (hm : ¬ r.method = "POST") :
    (ParseUpload E r s).1.FileName = "" ∧
    (headerGet r.headers "Content-Encoding" = "gzip" →
      (ParseUpload E r s).1.IsGzipped = true) ∧
    ((ParseUpload E r s).1.IsGzipped = true →
      headerGet r.headers "Content-Encoding" = "gzip" ∨
      (E.gzipData (ParseUpload E r s).1.UncompressedData
          = Except.ok (ParseUpload E r s).1.Data ∧
       (ParseUpload E r s).1.Data.length * 10
          < (ParseUpload E r s).1.UncompressedData.length * 9)) := by
  have hok := ParseUpload_not_post_ok E r s hm
  rw [ParseUpload_ok E r s hok]
  rw [acquireStep_put E r s hm]
  unfold finalizeUpload
  set p := (parsePut r s (initialPu r)).1.1 with hp
  have hpF : p.FileName = "" := rfl
  have hpG : p.IsGzipped = (headerGet r.headers "Content-Encoding" == "gzip") := rfl
  set q := sniffMime E (setSizes (setTimes E r p)) with hq
  have hqF : q.FileName = p.FileName := stages_FileName E r p
  have hqG : q.IsGzipped = p.IsGzipped := stages_IsGzipped E r p
  have hUD : q.UncompressedData = q.Data := stages_UD E r p
  refine ⟨?_, ?_, ?_⟩
  · cases hqg : q.IsGzipped
    · rcases negotiate_of_not_gzipped E q hqg with hE | ⟨c, hg, hlt, hE⟩
      · rw [hE, hqF, hpF]
      · rw [hE]
        show q.FileName = ""
        rw [hqF, hpF]
    · rcases hd : E.decompressData q.Data with m | u
      · rw [negotiate_of_gzipped_err E q m hqg hd, hqF, hpF]
      · rw [negotiate_of_gzipped_ok E q u hqg hd]
        show q.FileName = ""
        rw [hqF, hpF]
  · intro henc
    have : q.IsGzipped = true := by
      rw [hqG, hpG, henc]
      simp
    exact negotiate_gzipped_stays E q this
  · intro hres
    cases hqg : q.IsGzipped
    · rcases negotiate_of_not_gzipped E q hqg with hE | ⟨c, hg, hlt, hE⟩
      · rw [hE, hqg] at hres
        exact absurd hres (by simp)
      · right
        rw [hE]
        show E.gzipData q.UncompressedData = Except.ok c ∧ c.length * 10 < q.UncompressedData.length * 9
        rw [hUD]
        exact ⟨hg, hlt⟩
    · left
      have : (headerGet r.headers "Content-Encoding" == "gzip") = true := by
        rw [← hpG, ← hqG, hqg]
      exact eq_of_beq this

/-- Witness for C4's amended theorem on a concrete PUT request with
`Content-Encoding: gzip`. -/
theorem put_filename_and_gzip_flag_witness :
    (ParseUpload EX0 rPutGoodGzip 100).1.FileName = "" ∧
    (headerGet rPutGoodGzip.headers "Content-Encoding" = "gzip" →
      (ParseUpload EX0 rPutGoodGzip 100).1.IsGzipped = true) ∧
    ((ParseUpload EX0 rPutGoodGzip 100).1.IsGzipped = true →
      headerGet rPutGoodGzip.headers "Content-Encoding" = "gzip" ∨
      (EX0.gzipData (ParseUpload EX0 rPutGoodGzip 100).1.UncompressedData
          = Except.ok (ParseUpload EX0 rPutGoodGzip 100).1.Data ∧
       (ParseUpload EX0 rPutGoodGzip 100).1.Data.length * 10
          < (ParseUpload EX0 rPutGoodGzip 100).1.UncompressedData.length * 9)) :=
  put_filename_and_gzip_flag EX0 rPutGoodGzip 100 (by decide)

/-! ### C5 — compression is kept only strictly below 90% -/

/-- C5's counterexample: with `EX2` the compressed form of a ten-byte
payload is exactly nine bytes — exactly 90%, "no larger than 90%" as
the claim puts it — yet the negotiator keeps the original bytes and
leaves `IsGzipped = false`, because the source requires the strict
inequality `len(compressed)*10 < len(original)*9`. -/
theorem ninety_percent_boundary_not_kept :
    (ParseUpload EX2 rPutTen 100).1.IsGzipped = false ∧
    (ParseUpload EX2 rPutTen 100).1.Data = List.replicate 10 1 ∧
    EX2.gzipData (List.replicate 10 1) = Except.ok (List.replicate 9 0) ∧
    (List.replicate 9 0).length * 10 ≤ (List.replicate 10 1).length * 9 := by decide

/-- C5 (corrected): when the negotiator compresses a not-already-
compressed payload (the classifier condition holds and compression
succeeds), the compressed form is kept — and `IsGzipped` set — exactly
when `len(compressed) * 10 < len(original) * 9`, i.e. strictly smaller
than 90%; otherwise (the 90% boundary included) the record is returned
unchanged, original bytes and `IsGzipped = false` intact. -/
theorem negotiate_keeps_only_strictly_smaller (E : Externals) (pu : ParsedUpload)
    (c : List Nat)
    (h : pu.IsGzipped = false)
    (hb : ((pu.MimeType == ""
            && !(E.isGzippableFileType (pathBase pu.FileName) pu.MimeType).2)
        || ((E.isGzippableFileType (pathBase pu.FileName) pu.MimeType).1
            && (E.isGzippableFileType (pathBase pu.FileName) pu.MimeType).2)) = true)
    (hg : E.gzipData pu.Data = Except.ok c) :
    (c.length * 10 < pu.Data.length * 9 →
      negotiate E pu = { pu with Data := c, IsGzipped := true }) ∧
    (¬ c.length * 10 < pu.Data.length * 9 → negotiate E pu = pu) := by
  constructor <;> intro hlt <;> simp [negotiate, h, hb, hg, hlt]

/-- Witness for C5's amended theorem: `EX1` compresses a three-byte
payload to one byte, strictly below 90%, so it is kept. -/
theorem negotiate_keeps_only_strictly_smaller_witness :
    negotiate EX1 puC5 = { puC5 with Data := [9], IsGzipped := true } :=
  (negotiate_keeps_only_strictly_smaller EX1 puC5 [9]
    (by decide) (by decide) (by decide)).1 (by decide)

/-! ### Multipart helper lemmas -/

theorem negotiate_FileName (E : Externals) (pu : ParsedUpload) :
    (negotiate E pu).FileName = pu.FileName := by
  cases hg : pu.IsGzipped
  · rcases negotiate_of_not_gzipped E pu hg with hE | ⟨c, _, _, hE⟩ <;> rw [hE]
  · rcases hd : E.decompressData pu.Data with m | u
    · rw [negotiate_of_gzipped_err E pu m hg hd]
    · rw [negotiate_of_gzipped_ok E pu u hg hd]

theorem finalize_FileName (E : Externals) (r : Request) (pu : ParsedUpload) :
    (finalizeUpload E r pu).FileName = pu.FileName := by
  unfold finalizeUpload
  rw [negotiate_FileName, stages_FileName]

theorem finishMultipart_FileName (E : Externals) (r : Request) (part : Part)
    (pu : ParsedUpload) :
    (finishMultipart E r part pu).FileName = pu.FileName := by
  simp only [finishMultipart]
  split <;> rfl

theorem finishMultipart_Data (E : Externals) (r : Request) (part : Part)
    (pu : ParsedUpload) :
    (finishMultipart E r part pu).Data = pu.Data := by
  simp only [finishMultipart]
  split <;> rfl

theorem scanParts_skip (s : Int) (pre rest' : List (Except String Part))
    (hpre : ∀ x ∈ pre, ∃ q, x = Except.ok q ∧ q.filename = "") :
    scanParts s (pre ++ rest')
      = ((scanParts s rest').1, (scanParts s rest').2 + pre.length) := by
  induction pre with
  | nil => simp
  | cons x pre ih =>
    obtain ⟨q, hx, hq⟩ := hpre x (List.mem_cons_self x pre)
    subst hx
    have ih' := ih (fun y hy => hpre y (List.mem_cons_of_mem _ hy))
    simp only [List.cons_append, scanParts]
    rw [if_neg (by simp [hq])]
    show ((scanParts s (pre ++ rest')).1, (scanParts s (pre ++ rest')).2 + 1) = _
    rw [ih']
    simp [Nat.add_assoc]

theorem scanParts_named_ok (s : Int) (p : Part) (post : List (Except String Part))
    (hn : p.filename ≠ "")
    (hre : (readAllLimit p.bytes p.readErr (s + 1)).2 = none)
    (hsz : ¬ (((readAllLimit p.bytes p.readErr (s + 1)).1.length : Int) = s + 1)) :
    scanParts s (Except.ok p :: post)
      = (Except.ok (some ((readAllLimit p.bytes p.readErr (s + 1)).1, pathBase p.filename)), 1) := by
  rcases hR : readAllLimit p.bytes p.readErr (s + 1) with ⟨d2, e2⟩
  rw [hR] at hre hsz
  simp only at hre
  subst hre
  simp only at hsz
  simp [scanParts, hn, hR, hsz]

/-- Fully resolved multipart parse: unnamed primary section, some
skipped unnamed sections, then the first named section, read in full
and within the limit. -/
theorem parseMultipart_resolved (E : Externals) (r : Request) (s : Int)
    (pu : ParsedUpload) (p0 pn : Part) (pre post : List (Except String Part))
    (d0 : List Nat)
    (hparts : r.parts = Except.ok (Except.ok p0 :: (pre ++ Except.ok pn :: post)))
    (hp0 : p0.filename = "")
    (hpre : ∀ x ∈ pre, ∃ q, x = Except.ok q ∧ q.filename = "")
    (hpn : pn.filename ≠ "")
    (hprim : acquirePrimary E r s p0 = Except.ok d0)
    (hsz0 : ¬ ((d0.length : Int) = s + 1))
    (hre : (readAllLimit pn.bytes pn.readErr (s + 1)).2 = none)
    (hsz : ¬ (((readAllLimit pn.bytes pn.readErr (s + 1)).1.length : Int) = s + 1)) :
    parseMultipart E r s pu
      = ((finishMultipart E r p0
            { pu with FileName := pathBase pn.filename,
                      Data := pn.bytes.take (s + 1).toNat }, none), 2 + pre.length) := by
  have hskip := scanParts_skip s pre (Except.ok pn :: post) hpre
  have hnamed := scanParts_named_ok s pn post hpn hre hsz
  have hd2 := readAllLimit_fst pn.bytes pn.readErr (s + 1)
  simp only [parseMultipart, hparts, hp0, hprim]
  have htriv : (if ("" : String) ≠ "" then pathBase "" else "") = "" := by simp
  simp only [htriv, eq_self_iff_true, if_true]
  rw [if_neg hsz0]
  rw [hskip, hnamed, hd2]
  simp [← Nat.add_assoc]

/-! ### C6 — a later named section wins -/

/-- C6 (confirmed): on a successful multipart parse whose primary
section has no file name, with the first named section appearing after
some unnamed ones, the final `FileName` is that section's base name,
the resolver's `Data` is that section's bytes capped at
`sizeLimit + 1`, and exactly `2 + pre.length` sections were consumed:
the primary, the skipped unnamed ones, and the chosen one — none
after it. -/
theorem later_named_section_wins (E : Externals) (r : Request) (s : Int)
    (p0 pn : Part) (pre post : List (Except String Part))
    (hm : r.method = "POST")
    (hparts : r.parts = Except.ok (Except.ok p0 :: (pre ++ Except.ok pn :: post)))
    (hp0 : p0.filename = "")
    (hpre : ∀ x ∈ pre, ∃ q, x = Except.ok q ∧ q.filename = "")
    (hpn : pn.filename ≠ "")
    (hok : (ParseUpload E r s).2 = none) :
    (ParseUpload E r s).1.FileName = pathBase pn.filename ∧
    (parseMultipart E r s (initialPu r)).1.1.Data = pn.bytes.take (s + 1).toNat ∧
    (parseMultipart E r s (initialPu r)).2 = 2 + pre.length := by
  have h2 := ParseUpload_snd E r s
  rw [acquireStep_post E r s hm] at h2
  have hmp : (parseMultipart E r s (initialPu r)).1.2 = none := by
    rw [← h2]
    exact hok
  rcases hA : acquirePrimary E r s p0 with err | d0
  · exfalso
    simp [parseMultipart, hparts, hA] at hmp
  · by_cases hsz0 : ((d0.length : Int) = s + 1)
    · exfalso
      simp [parseMultipart, hparts, hA, hsz0] at hmp
    · rcases hR : readAllLimit pn.bytes pn.readErr (s + 1) with ⟨d2, e2⟩
      have hskip := scanParts_skip s pre (Except.ok pn :: post) hpre
      rcases e2 with _ | err2
      · by_cases hsz : ((d2.length : Int) = s + 1)
        · exfalso
          have hnamed : scanParts s (Except.ok pn :: post)
              = (Except.error (Err.sizeLimit s), 1) := by
            simp [scanParts, hpn, hR, hsz]
          simp [parseMultipart, hparts, hp0, hA, hsz0, hskip, hnamed] at hmp
        · have hre' : (readAllLimit pn.bytes pn.readErr (s + 1)).2 = none := by
            rw [hR]
          have hsz' : ¬ (((readAllLimit pn.bytes pn.readErr (s + 1)).1.length : Int) = s + 1) := by
            rw [hR]
            exact hsz
          have hall := parseMultipart_resolved E r s (initialPu r) p0 pn pre post d0
            hparts hp0 hpre hpn hA hsz0 hre' hsz'
          refine ⟨?_, ?_, ?_⟩
          · rw [ParseUpload_ok E r s hok, acquireStep_post E r s hm, hall,
              finalize_FileName, finishMultipart_FileName]
          · rw [hall, finishMultipart_Data]
          · rw [hall]
      · exfalso
        have hnamed : scanParts s (Except.ok pn :: post) = (Except.error err2, 1) := by
          simp [scanParts, hpn, hR]
        simp [parseMultipart, hparts, hp0, hA, hsz0, hskip, hnamed] at hmp

/-- Witness for C6: four sections — unnamed primary, unnamed second,
named third, trailing fourth; the parse succeeds, takes name and data
from the third, and consumes exactly three sections. -/
theorem later_named_section_wins_witness :
    (ParseUpload EX0 rPostScan 100).1.FileName = pathBase (mkPart "dir/e.txt" [3, 4]).filename ∧
    (parseMultipart EX0 rPostScan 100 (initialPu rPostScan)).1.1.Data
      = (mkPart "dir/e.txt" [3, 4]).bytes.take ((100 : Int) + 1).toNat ∧
    (parseMultipart EX0 rPostScan 100 (initialPu rPostScan)).2
      = 2 + ([Except.ok (mkPart "" [2])] : List (Except String Part)).length :=
  later_named_section_wins EX0 rPostScan 100 (mkPart "" [1]) (mkPart "dir/e.txt" [3, 4])
    [Except.ok (mkPart "" [2])] [Except.ok (mkPart "late.bin" [9, 9, 9])]
    (by decide) (by rfl) (by decide)
    (fun x hx => ⟨mkPart "" [2], List.mem_singleton.mp hx, rfl⟩)
    (by decide) (by decide)

/-! ### C7 — checksum mismatch is fatal with the literal message -/

/-- C7 (confirmed): for a multipart request carrying an expected
checksum, when the digest of the consumed primary stream (the capped
section bytes, gzip-decoded first when `Content-Encoding: gzip`)
differs from the expected value, `ParseUpload` fails with the
`Content-MD5 did not match` error carrying both the expected and the
computed value; no record is returned as valid. -/
theorem checksum_mismatch_fails (E : Externals) (r : Request) (s : Int)
    (p0 : Part) (rest : List (Except String Part))
    (exp : String) (stream : List Nat) (e1 : Option Err)
    (hm : r.method = "POST")
    (hparts : r.parts = Except.ok (Except.ok p0 :: rest))
    (hexp : headerGet r.headers "Content-MD5" = exp)
    (hne : exp ≠ "")
    (hstream : consumedPrimaryStream E r s p0 = Except.ok (stream, e1))
    (hmm : ¬ E.md5hex stream = exp) :
    (ParseUpload E r s).2 = some (Err.checksumMismatch exp (E.md5hex stream)) ∧
    render (Err.checksumMismatch exp (E.md5hex stream))
      = "Content-MD5 did not match md5 of file data [" ++ exp ++ "] != ["
        ++ E.md5hex stream ++ "]" := by
  refine ⟨?_, rfl⟩
  rw [ParseUpload_snd, acquireStep_post E r s hm]
  have hacq : acquirePrimary E r s p0
      = Except.error (Err.checksumMismatch exp (E.md5hex stream)) := by
    simp only [acquirePrimary, hexp, hstream]
    simp [hne, Ne.symm hmm]
  simp [parseMultipart, hparts, hacq]

/-- Witness for C7: expected `"zzz"`, computed digest `"3"`. -/
theorem checksum_mismatch_fails_witness :
    (ParseUpload EX0 rPostBadSum 10).2
      = some (Err.checksumMismatch "zzz" (EX0.md5hex [1, 2])) ∧
    render (Err.checksumMismatch "zzz" (EX0.md5hex [1, 2]))
      = "Content-MD5 did not match md5 of file data [" ++ "zzz" ++ "] != ["
        ++ EX0.md5hex [1, 2] ++ "]" :=
  checksum_mismatch_fails EX0 rPostBadSum 10 (mkPart "a.txt" [1, 2]) [] "zzz" [1, 2] none
    (by decide) (by rfl) (by decide) (by decide) (by rfl) (by decide)

/-! ### C10 — replacement bytes are never checksum-validated -/

/-- C10 (confirmed): with an expected checksum present and an unnamed
primary section whose stream satisfies it, a later named section's
bytes replace the payload through a plain capped read with no checksum
validation: the parse succeeds with `Data` equal to those bytes,
whatever they digest to (the digest was only ever compared against the
primary stream, inside `hprim`). -/
theorem replacement_bytes_unvalidated (E : Externals) (r : Request) (s : Int)
    (p0 pn : Part) (pre post : List (Except String Part))
    (d0 : List Nat) (exp : String)
    (hm : r.method = "POST")
    (hparts : r.parts = Except.ok (Except.ok p0 :: (pre ++ Except.ok pn :: post)))
    (hp0 : p0.filename = "")
    (hpre : ∀ x ∈ pre, ∃ q, x = Except.ok q ∧ q.filename = "")
    (hpn : pn.filename ≠ "")
    (hexp : headerGet r.headers "Content-MD5" = exp)
    (hne : exp ≠ "")
    (hprim : acquirePrimary E r s p0 = Except.ok d0)
    (hsz0 : ¬ ((d0.length : Int) = s + 1))
    (hre : (readAllLimit pn.bytes pn.readErr (s + 1)).2 = none)
    (hsz : ¬ (((readAllLimit pn.bytes pn.readErr (s + 1)).1.length : Int) = s + 1)) :
    (ParseUpload E r s).2 = none ∧
    (parseMultipart E r s (initialPu r)).1.1.Data = pn.bytes.take (s + 1).toNat := by
  have hall := parseMultipart_resolved E r s (initialPu r) p0 pn pre post d0
    hparts hp0 hpre hpn hprim hsz0 hre hsz
  constructor
  · rw [ParseUpload_snd, acquireStep_post E r s hm, hall]
  · rw [hall, finishMultipart_Data]

/-- Witness for C10: `Content-MD5: 0` matches the empty primary stream;
the named second section's bytes `[5, 5, 5]` digest to `"15" ≠ "0"` yet
are returned as `Data` on a successful parse. -/
theorem replacement_bytes_unvalidated_witness :
    ¬ EX0.md5hex [5, 5, 5] = "0" ∧
    ((ParseUpload EX0 rPostSwap 10).2 = none ∧
     (parseMultipart EX0 rPostSwap 10 (initialPu rPostSwap)).1.1.Data
       = (mkPart "n.bin" [5, 5, 5]).bytes.take ((10 : Int) + 1).toNat) :=
  ⟨by decide,
   replacement_bytes_unvalidated EX0 rPostSwap 10 (mkPart "" []) (mkPart "n.bin" [5, 5, 5])
     [] [] [] "0"
     (by decide) (by rfl) (by decide)
     (fun x hx => absurd hx (List.not_mem_nil x))
     (by decide) (by rfl) (by decide) (by rfl) (by decide) (by rfl) (by decide)⟩

end NeedleParse

